import Mathlib

/-!
Shallow embedding of the `illegal` repository (packages `illegal` and
`generics`): runtime type-checked generic operations over slices, driven
by reflection.

Modelling conventions:

* Go runtime types restricted to the universe this development needs are
  the inductive `Ty`; `reflect.Type` equality is `DecidableEq Ty`.
* First-order Go values (the ones that appear inside slices and as fold
  zero values) are `GoVal`.  A `reflect.Value` of kind `Slice` is
  `GoVal.vslice elemTy elems`, carrying the static element type of the
  slice (Go guarantees every element has that type).
* A Go function value is `GoFunc`: its reflected signature (`ins`,
  `outs`, mirroring `Type.In`/`Type.Out`), its code address
  (`ptr`, mirroring `Value.Pointer`), and its behaviour
  (`call`, mirroring `Value.Call`).  An `interface\x7b\x7d` argument
  position that the source checks with `Kind() != reflect.Func` is
  `FuncArg`: either a function value or a non-function value.
* A Go `panic(msg)` is `Except.error msg`; a normal return is
  `Except.ok`.  The panic strings are copied verbatim from the source.
* `f.Call(args)[0]` is `call1`/`call2`: the head of the returned list
  (total with a default that is unreachable for any function whose
  behaviour returns its declared single result).
-/

inductive Ty where
  | int
  | float64
  | bool
  | str
  | iface
  | slice (elem : Ty)
  deriving DecidableEq, Repr

inductive GoVal where
  | vint (n : Int)
  | vfloat64 (n : Int)
  | vbool (b : Bool)
  | vstr (s : String)
  | vslice (elemTy : Ty) (elems : List GoVal)
  deriving Repr

/-- Models `reflect.TypeOf` on the (non-nil) values of this universe. -/
def typeOf : GoVal → Ty
  | .vint _ => .int
  | .vfloat64 _ => .float64
  | .vbool _ => .bool
  | .vstr _ => .str
  | .vslice t _ => .slice t

/-- A Go function value as seen through `reflect`: signature, code
address, and callable behaviour. -/
structure GoFunc where
  ins : List Ty
  outs : List Ty
  ptr : Nat
  call : List GoVal → List GoVal

/-- An `interface\x7b\x7d` argument in a position where the source
checks `reflect.ValueOf(x).Kind() != reflect.Func`. -/
inductive FuncArg where
  | fn (f : GoFunc)
  | notFn (v : GoVal)

/-- Models `f.Call(args)[0]` for a one-argument call. -/
def call1 (f : GoFunc) (v : GoVal) : GoVal :=
  (f.call [v]).headD (.vbool false)

/-- Models `f.Call(args)[0]` for a two-argument call. -/
def call2 (f : GoFunc) (a b : GoVal) : GoVal :=
  (f.call [a, b]).headD (.vbool false)

/-- Models `reflect.Value.Bool` on a value produced by a callback whose
return type was checked to be `bool`. -/
def asBool : GoVal → Bool
  | .vbool b => b
  | _ => false

namespace generics

def mapSliceMsg : String := "illegal: passed non-slice value to Map"

def mapFnMsg : String := "illegal: passed non-function value to Map"

def mapSigMsg : String :=
  "illegal: function type and slice type do not match in call to Map(slc []T, pred func(T) U) []U"

/-- Embeds `generics.Map` (src/generics/generics.go, lines 45-74):
kind checks, then the signature check
`NumIn() != 1 or NumOut() != 1 or In(0) != slcType.Elem()`, then a
fresh result slice of element type `Out(0)` filled with
`f.Call(args)[0]` in index order.  (`illegal.Map` in src/illegal.go is
line-identical apart from panic message wording.) -/
def Map (slc : GoVal) (pred : FuncArg) : Except String GoVal :=
  match slc with
  | .vslice elemTy elems =>
    match pred with
    | .fn f =>
      match f.ins, f.outs with
      | [t0], [u0] =>
        if t0 = elemTy then
          .ok (.vslice u0 (elems.map (call1 f)))
        else
          .error mapSigMsg
      | _, _ => .error mapSigMsg
    | .notFn _ => .error mapFnMsg
  | _ => .error mapSliceMsg

def filterSliceMsg : String := "illegal: passed non-slice value to Filter"

def filterFnMsg : String := "illegal: passed non-function value to Filter"

def filterSigMsg : String :=
  "illegal: function type and slice type do not match in call to Filter(slc []T, pred func(T) bool) []T"

/-- Embeds `generics.Filter` (src/generics/generics.go, lines 84-114):
kind checks, the signature check
`NumIn() != 1 or NumOut() != 1 or In(0) != elemType or Out(0) != boolType`,
then a fresh slice of the original slice type holding, in order, the
elements on which the callback returned `true`. -/
def Filter (slc : GoVal) (pred : FuncArg) : Except String GoVal :=
  match slc with
  | .vslice elemTy elems =>
    match pred with
    | .fn f =>
      match f.ins, f.outs with
      | [t0], [r0] =>
        if t0 = elemTy then
          if r0 = .bool then
            .ok (.vslice elemTy (elems.filter (fun e => asBool (call1 f e))))
          else
            .error filterSigMsg
        else
          .error filterSigMsg
      | _, _ => .error filterSigMsg
    | .notFn _ => .error filterFnMsg
  | _ => .error filterSliceMsg

def rejectSliceMsg : String := "illegal: passed non-slice value to Reject"

def rejectFnMsg : String := "illegal: passed non-function value to Reject"

def rejectSigMsg : String :=
  "illegal: function type and slice type do not match in call to Reject(slc []T, pred func(T) bool) []T"

/-- Embeds `generics.Reject` (src/generics/generics.go, lines 124-154):
identical to `Filter` except that it keeps the elements on which the
callback returned `false`. -/
def Reject (slc : GoVal) (pred : FuncArg) : Except String GoVal :=
  match slc with
  | .vslice elemTy elems =>
    match pred with
    | .fn f =>
      match f.ins, f.outs with
      | [t0], [r0] =>
        if t0 = elemTy then
          if r0 = .bool then
            .ok (.vslice elemTy (elems.filter (fun e => !(asBool (call1 f e)))))
          else
            .error rejectSigMsg
        else
          .error rejectSigMsg
      | _, _ => .error rejectSigMsg
    | .notFn _ => .error rejectFnMsg
  | _ => .error rejectSliceMsg

def foldrSliceMsg : String := "illegal: passed non-slice value to Foldr"

def foldrFnMsg : String := "illegal: passed non-function value to Foldr"

def foldrSigMsg : String :=
  "illegal: function type and slice type do not match in call to Foldr(slc []T, zero U, pred func(T, U) U) U"

def foldrZeroMsg : String :=
  "illegal: zero type and function return type do not match in call to Foldr(slc []T, zero U, pred func(T, U) U) U"

/-- Embeds `generics.Foldr` (src/generics/generics.go, lines 167-203):
kind checks, the signature check
`NumIn() != 2 or NumOut() != 1 or In(0) != elemType or In(1) != Out(0)`,
the zero cross-check `Out(0) != z.Type()`, then the loop
`args[1] = z; for i = 0 .. len-1: args[1] = f.Call(slc[i], args[1])[0]`,
which is a left-to-right traversal threading the accumulator through the
callback's second argument. -/
def Foldr (slc zero : GoVal) (pred : FuncArg) : Except String GoVal :=
  match slc with
  | .vslice elemTy elems =>
    match pred with
    | .fn f =>
      match f.ins, f.outs with
      | [t0, u1], [r0] =>
        if t0 = elemTy then
          if u1 = r0 then
            if r0 = typeOf zero then
              .ok (elems.foldl (fun acc e => call2 f e acc) zero)
            else
              .error foldrZeroMsg
          else
            .error foldrSigMsg
        else
          .error foldrSigMsg
      | _, _ => .error foldrSigMsg
    | .notFn _ => .error foldrFnMsg
  | _ => .error foldrSliceMsg

def foldlSliceMsg : String := "illegal: passed non-slice value to Foldl"

def foldlFnMsg : String := "illegal: passed non-function value to Foldl"

def foldlSigMsg : String :=
  "illegal: function type and slice type do not match in call to Foldl(slc []T, zero U, pred func(U, T) U) U"

def foldlZeroMsg : String :=
  "illegal: zero type and function return type do not match in call to Foldl(slc []T, zero U, pred func(U, T) U) U"

/-- Embeds `generics.Foldl` (src/generics/generics.go, lines 216-252):
kind checks, the signature check
`NumIn() != 2 or NumOut() != 1 or In(1) != elemType or In(0) != Out(0)`,
the zero cross-check `Out(0) != z.Type()`, then the loop
`args[0] = z; for i = len-1 .. 0: args[0] = f.Call(args[0], slc[i])[0]`,
which traverses from the last element to the first, threading the
accumulator through the callback's first argument. -/
def Foldl (slc zero : GoVal) (pred : FuncArg) : Except String GoVal :=
  match slc with
  | .vslice elemTy elems =>
    match pred with
    | .fn f =>
      match f.ins, f.outs with
      | [u0, t1], [r0] =>
        if t1 = elemTy then
          if u0 = r0 then
            if r0 = typeOf zero then
              .ok (elems.foldr (fun e acc => call2 f acc e) zero)
            else
              .error foldlZeroMsg
          else
            .error foldlSigMsg
        else
          .error foldlSigMsg
      | _, _ => .error foldlSigMsg
    | .notFn _ => .error foldlFnMsg
  | _ => .error foldlSliceMsg

def maxSliceMsg : String := "illegal: passed non-slice value to Max"

def maxFnMsg : String := "illegal: passed non-function value to Max"

def maxSigMsg : String :=
  "illegal: function type and slice type do not match in call to Max(slc []T, less func(T, T) bool) T"

/-- Embeds `generics.Max` (src/generics/generics.go, lines 447-480):
kind checks, the signature check
`NumIn() != 2 or NumOut() != 1 or In(0) != elemType or In(1) != elemType or Out(0) != boolType`,
the empty-slice early return of a nil interface (modelled as `none`),
then the loop `best = slc[0]; for each later candidate: if
less(best, candidate) then best = candidate`. -/
def Max (slc : GoVal) (less : FuncArg) : Except String (Option GoVal) :=
  match slc with
  | .vslice elemTy elems =>
    match less with
    | .fn f =>
      match f.ins, f.outs with
      | [t0, t1], [r0] =>
        if t0 = elemTy then
          if t1 = elemTy then
            if r0 = .bool then
              match elems with
              | [] => .ok none
              | e :: rest =>
                .ok (some (rest.foldl
                  (fun best cand => if asBool (call2 f best cand) then cand else best) e))
            else
              .error maxSigMsg
          else
            .error maxSigMsg
        else
          .error maxSigMsg
      | _, _ => .error maxSigMsg
    | .notFn _ => .error maxFnMsg
  | _ => .error maxSliceMsg

def minSliceMsg : String := "illegal: passed non-slice value to Min"

def minFnMsg : String := "illegal: passed non-function value to Min"

def minSigMsg : String :=
  "illegal: function type and slice type do not match in call to Min(slc []T, less func(T, T) bool) T"

/-- Embeds `generics.Min` (src/generics/generics.go, lines 490-523):
identical checks to `Max`; the loop keeps the current best in `args[1]`
and replaces it with the candidate (passed as the callback's first
argument) exactly when `less(candidate, best)` is `true`. -/
def Min (slc : GoVal) (less : FuncArg) : Except String (Option GoVal) :=
  match slc with
  | .vslice elemTy elems =>
    match less with
    | .fn f =>
      match f.ins, f.outs with
      | [t0, t1], [r0] =>
        if t0 = elemTy then
          if t1 = elemTy then
            if r0 = .bool then
              match elems with
              | [] => .ok none
              | e :: rest =>
                .ok (some (rest.foldl
                  (fun best cand => if asBool (call2 f cand best) then cand else best) e))
            else
              .error minSigMsg
          else
            .error minSigMsg
        else
          .error minSigMsg
      | _, _ => .error minSigMsg
    | .notFn _ => .error minFnMsg
  | _ => .error minSliceMsg

end generics

/-! Concrete function values used by the witnesses. -/

/-- The squaring callback `func(i int) int \x7b return i * i \x7d`. -/
def sqFunc : GoFunc :=
  ⟨[.int], [.int], 100, fun args =>
    match args with
    | [.vint n] => [.vint (n * n)]
    | _ => []⟩

/-- The constantly-true predicate `func(i int) bool \x7b return true \x7d`. -/
def trueFunc : GoFunc :=
  ⟨[.int], [.bool], 101, fun _ => [.vbool true]⟩

/-- The constantly-false predicate `func(i int) bool \x7b return false \x7d`. -/
def falseFunc : GoFunc :=
  ⟨[.int], [.bool], 102, fun _ => [.vbool false]⟩

/-- The evenness predicate `func(i int) bool \x7b return i % 2 == 0 \x7d`. -/
def evenFunc : GoFunc :=
  ⟨[.int], [.bool], 103, fun args =>
    match args with
    | [.vint n] => [.vbool (n % 2 == 0)]
    | _ => []⟩

/-- The addition combinator `func(i, j int) int \x7b return i + j \x7d`. -/
def addFunc : GoFunc :=
  ⟨[.int, .int], [.int], 104, fun args =>
    match args with
    | [.vint a, .vint b] => [.vint (a + b)]
    | _ => []⟩

/-- The subtraction combinator `func(i, j int) int \x7b return i - j \x7d`. -/
def subFunc : GoFunc :=
  ⟨[.int, .int], [.int], 105, fun args =>
    match args with
    | [.vint a, .vint b] => [.vint (a - b)]
    | _ => []⟩

/-- The integer comparator `func(a, b int) bool \x7b return a < b \x7d`. -/
def lessFunc : GoFunc :=
  ⟨[.int, .int], [.bool], 106, fun args =>
    match args with
    | [.vint a, .vint b] => [.vbool (a < b)]
    | _ => []⟩

/-- A two-parameter callback `func(i, j int) int`, invalid for `Map`. -/
def twoParamFunc : GoFunc :=
  ⟨[.int, .int], [.int], 107, fun _ => [.vint 0]⟩

/-- A structurally valid `Foldr` callback `func(i int, b bool) bool`
whose accumulator type is `bool`. -/
def foldrBoolAccFunc : GoFunc :=
  ⟨[.int, .bool], [.bool], 108, fun _ => [.vbool false]⟩

/-- A structurally valid `Foldl` callback `func(b bool, i int) bool`
whose accumulator type is `bool`. -/
def foldlBoolAccFunc : GoFunc :=
  ⟨[.bool, .int], [.bool], 109, fun _ => [.vbool false]⟩

/-- Renders a `Ty` the way Go's `reflect.Type.String` renders the
corresponding type; used verbatim inside conversion panic messages. -/
def tyStr : Ty → String
  | .int => "int"
  | .float64 => "float64"
  | .bool => "bool"
  | .str => "string"
  | .iface => "interface \x7b\x7d"
  | .slice t => "[]" ++ tyStr t

/-- Models Go's `reflect.Type.ConvertibleTo` restricted to this
universe: identity conversions, conversions among the numeric types,
integer-to-string (rune) conversion, and the conversion of any type to
the empty interface. -/
def convertibleTo : Ty → Ty → Bool
  | _, .iface => true
  | .int, .int => true
  | .int, .float64 => true
  | .int, .str => true
  | .float64, .int => true
  | .float64, .float64 => true
  | .bool, .bool => true
  | .str, .str => true
  | .slice a, .slice b => a == b
  | _, _ => false

/-- Models `reflect.Value.Convert` on the convertible pairs of this
universe (the float values of this development are integral, so the
int/float conversions are exact). -/
def convertVal (v : GoVal) (t : Ty) : GoVal :=
  match v, t with
  | v, .iface => v
  | .vint n, .float64 => .vfloat64 n
  | .vint n, .str => .vstr (String.mk [Char.ofNat n.toNat])
  | .vfloat64 n, .int => .vint n
  | v, _ => v

namespace illegal

def funcEqualMsg : String := "illegal.FuncEqual: passed non-function value"

/-- Embeds `illegal.FuncEqual` (src/unnamed/part_004, lines 33-38): if
either argument is not of kind `Func` it panics, otherwise it compares
the two code addresses.  (The variant in src/illegal.go is identical
apart from the panic message wording.) -/
def FuncEqual (f1 f2 : FuncArg) : Except String Bool :=
  match f1, f2 with
  | .fn g1, .fn g2 => .ok (g1.ptr == g2.ptr)
  | _, _ => .error funcEqualMsg

/-- Embeds the unexported `illegal.convertSliceType` (src/unnamed/
part_004, lines 97-142).  On a non-slice it panics with the bare
message (the exported wrappers prepend their own prefix).  On a
non-empty slice it converts each element; the first `Convert` call
panics exactly when the element type is not convertible to the target,
and the recover turns that into the "cannot convert" message.  On an
empty slice no conversion runs, so the source performs the explicit
check `slice.Type().ConvertibleTo(typ)` — note that this consults the
convertibility of the SLICE type `[]T`, not of the element type `T`,
while the panic message it produces names the element type. -/
def convertSliceType (slc : GoVal) (typ : Ty) : Except String GoVal :=
  match slc with
  | .vslice elemTy elems =>
    match elems with
    | [] =>
      if convertibleTo (.slice elemTy) typ then
        .ok (.vslice typ [])
      else
        .error ("cannot convert type " ++ tyStr elemTy ++ " to " ++ tyStr typ)
    | _ =>
      if convertibleTo elemTy typ then
        .ok (.vslice typ (elems.map (fun v => convertVal v typ)))
      else
        .error ("cannot convert type " ++ tyStr elemTy ++ " to " ++ tyStr typ)
  | _ => .error "passed non-slice value"

/-- Embeds `illegal.ConvertSlice` (src/unnamed/part_004, lines 51-63):
delegates to `convertSliceType` at the example value's reflected type
and prepends its own name to any panic message.  (The source calls the
second parameter `example`; that word is reserved in Lean.) -/
def ConvertSlice (slc exVal : GoVal) : Except String GoVal :=
  match convertSliceType slc (typeOf exVal) with
  | .ok v => .ok v
  | .error s => .error ("illegal.ConvertSlice: " ++ s)

/-- Embeds `illegal.ConvertSliceType` (src/unnamed/part_004, lines
76-88): delegates to `convertSliceType` at the given type and prepends
its own name to any panic message. -/
def ConvertSliceType (slc : GoVal) (typ : Ty) : Except String GoVal :=
  match convertSliceType slc typ with
  | .ok v => .ok v
  | .error s => .error ("illegal.ConvertSliceType: " ++ s)

end illegal

/-- Claim C1: for every slice of element type `T` and function of shape
`T to U`, `Map` returns a fresh slice of element type `U`, of the same
length, whose entry at each index `i` is the callback's single return
value on the slice's entry at `i`, produced in index order; on the empty
slice it returns the empty slice of element type `U`. -/
theorem C1_map_correct (elemTy U : Ty) (elems : List GoVal) (f : GoFunc)
    (hin : f.ins = [elemTy]) (hout : f.outs = [U]) :
    generics.Map (.vslice elemTy elems) (.fn f) = .ok (.vslice U (elems.map (call1 f)))
      ∧ (elems.map (call1 f)).length = elems.length
      ∧ (∀ i : Nat, (elems.map (call1 f))[i]? = elems[i]?.map (call1 f))
      ∧ generics.Map (.vslice elemTy []) (.fn f) = .ok (.vslice U []) := by
  obtain ⟨ins, outs, p, c⟩ := f
  dsimp only at hin hout
  subst hin
  subst hout
  refine ⟨?_, ?_, ?_, ?_⟩
  · simp [generics.Map]
  · simp
  · intro i
    simp [List.getElem?_map]
  · simp [generics.Map]

/-- Witness for C1: mapping the squaring function over `[1, 2, 3]`
yields `[1, 4, 9]`. -/
theorem C1_map_witness :
    generics.Map (.vslice .int [.vint 1, .vint 2, .vint 3]) (.fn sqFunc)
      = .ok (.vslice .int [.vint 1, .vint 4, .vint 9]) := by
  rw [(C1_map_correct .int .int [.vint 1, .vint 2, .vint 3] sqFunc rfl rfl).1]
  rfl

/-- Splitting a list by a predicate preserves total length. -/
theorem length_filter_add_length_filter_not (p : GoVal → Bool) (l : List GoVal) :
    (l.filter p).length + (l.filter (fun e => !(p e))).length = l.length := by
  induction l with
  | nil => rfl
  | cons a l ih =>
    by_cases h : p a <;> simp [List.filter_cons, h] <;> omega

/-- Claim C5: for every slice and boolean predicate of the element
type, `Filter` with an always-true predicate returns the slice itself,
`Filter` with an always-false predicate returns the empty slice,
`Reject` keeps exactly the elements on which the predicate returns
`false` in their relative order (the exact complement of `Filter`), and
the lengths of the `Filter` and `Reject` results add up to the length
of the input. -/
theorem C5_filter_reject (elemTy : Ty) (elems : List GoVal) (f : GoFunc)
    (hin : f.ins = [elemTy]) (hout : f.outs = [.bool]) :
    ((∀ v, asBool (call1 f v) = true) →
        generics.Filter (.vslice elemTy elems) (.fn f) = .ok (.vslice elemTy elems))
      ∧ ((∀ v, asBool (call1 f v) = false) →
        generics.Filter (.vslice elemTy elems) (.fn f) = .ok (.vslice elemTy []))
      ∧ generics.Filter (.vslice elemTy elems) (.fn f)
          = .ok (.vslice elemTy (elems.filter (fun e => asBool (call1 f e))))
      ∧ generics.Reject (.vslice elemTy elems) (.fn f)
          = .ok (.vslice elemTy (elems.filter (fun e => !(asBool (call1 f e)))))
      ∧ (elems.filter (fun e => asBool (call1 f e))).length
          + (elems.filter (fun e => !(asBool (call1 f e)))).length = elems.length := by
  obtain ⟨ins, outs, p, c⟩ := f
  dsimp only at hin hout
  subst hin
  subst hout
  refine ⟨?_, ?_, ?_, ?_, ?_⟩
  · intro h
    simp [generics.Filter, List.filter_eq_self.mpr (fun a _ => h a)]
  · intro h
    have : ∀ a ∈ elems, ¬ (asBool (call1 ⟨[elemTy], [.bool], p, c⟩ a) = true) := by
      intro a _
      simp [h a]
    simp [generics.Filter, List.filter_eq_nil_iff.mpr this]
  · simp [generics.Filter]
  · simp [generics.Reject]
  · exact length_filter_add_length_filter_not _ elems

/-- Witness for C5: filtering `[1, 2, 3, 4]` with always-true keeps the
slice, with always-false empties it, rejecting with the evenness
predicate keeps `[1, 3]`, and the lengths of the even and odd parts add
up to 4. -/
theorem C5_filter_reject_witness :
    generics.Filter (.vslice .int [.vint 1, .vint 2, .vint 3, .vint 4]) (.fn trueFunc)
        = .ok (.vslice .int [.vint 1, .vint 2, .vint 3, .vint 4])
      ∧ generics.Filter (.vslice .int [.vint 1, .vint 2, .vint 3, .vint 4]) (.fn falseFunc)
        = .ok (.vslice .int [])
      ∧ generics.Reject (.vslice .int [.vint 1, .vint 2, .vint 3, .vint 4]) (.fn evenFunc)
        = .ok (.vslice .int [.vint 1, .vint 3])
      ∧ ([.vint 1, .vint 2, .vint 3, .vint 4].filter
            (fun e => asBool (call1 evenFunc e))).length
          + ([.vint 1, .vint 2, .vint 3, .vint 4].filter
            (fun e => !(asBool (call1 evenFunc e)))).length = 4 := by
  refine ⟨?_, ?_, ?_, ?_⟩
  · exact (C5_filter_reject .int [.vint 1, .vint 2, .vint 3, .vint 4] trueFunc rfl rfl).1
      (fun v => rfl)
  · exact (C5_filter_reject .int [.vint 1, .vint 2, .vint 3, .vint 4] falseFunc rfl rfl).2.1
      (fun v => rfl)
  · rw [(C5_filter_reject .int [.vint 1, .vint 2, .vint 3, .vint 4] evenFunc rfl rfl).2.2.2.1]
    rfl
  · exact (C5_filter_reject .int [.vint 1, .vint 2, .vint 3, .vint 4] evenFunc rfl rfl).2.2.2.2

/-- Claim C2: for every slice, zero value and callback of shape
`(U, T) to U` whose return type matches the zero value's type, `Foldl`
traverses the slice from the last element to the first, starting the
accumulator at the zero value and updating it with
`f(accumulator, element)` — equivalently, a right fold whose first
callback call consumes the final element — and on the empty slice it
returns the zero value unchanged. -/
theorem C2_foldl_correct (elemTy U : Ty) (elems : List GoVal) (zero : GoVal) (f : GoFunc)
    (hin : f.ins = [U, elemTy]) (hout : f.outs = [U]) (hz : typeOf zero = U) :
    generics.Foldl (.vslice elemTy elems) zero (.fn f)
        = .ok (elems.foldr (fun e acc => call2 f acc e) zero)
      ∧ (∀ (l : List GoVal) (a z : GoVal),
          (l ++ [a]).foldr (fun e acc => call2 f acc e) z
            = l.foldr (fun e acc => call2 f acc e) (call2 f z a))
      ∧ generics.Foldl (.vslice elemTy []) zero (.fn f) = .ok zero := by
  obtain ⟨ins, outs, p, c⟩ := f
  dsimp only at hin hout
  subst hin
  subst hout
  subst hz
  refine ⟨?_, ?_, ?_⟩
  · simp [generics.Foldl]
  · intro l a z
    simp [List.foldr_append]
  · simp [generics.Foldl]

/-- Witness for C2: folding `[3, 2, 1]` leftward with subtraction and
zero value 6 computes `((6 - 1) - 2) - 3 = 0`. -/
theorem C2_foldl_witness :
    generics.Foldl (.vslice .int [.vint 3, .vint 2, .vint 1]) (.vint 6) (.fn subFunc)
      = .ok (.vint 0) := by
  rw [(C2_foldl_correct .int .int [.vint 3, .vint 2, .vint 1] (.vint 6) subFunc rfl rfl rfl).1]
  rfl

/-- Claim C3: for every slice, zero value and callback of shape
`(T, U) to U` whose return type matches the zero value's type, `Foldr`
accumulates left-to-right from the first element to the last, starting
the accumulator at the zero value and updating it with
`f(element, accumulator)`, and on the empty slice it returns the zero
value unchanged. -/
theorem C3_foldr_correct (elemTy U : Ty) (elems : List GoVal) (zero : GoVal) (f : GoFunc)
    (hin : f.ins = [elemTy, U]) (hout : f.outs = [U]) (hz : typeOf zero = U) :
    generics.Foldr (.vslice elemTy elems) zero (.fn f)
        = .ok (elems.foldl (fun acc e => call2 f e acc) zero)
      ∧ (∀ (l : List GoVal) (a z : GoVal),
          (a :: l).foldl (fun acc e => call2 f e acc) z
            = l.foldl (fun acc e => call2 f e acc) (call2 f a z))
      ∧ generics.Foldr (.vslice elemTy []) zero (.fn f) = .ok zero := by
  obtain ⟨ins, outs, p, c⟩ := f
  dsimp only at hin hout
  subst hin
  subst hout
  subst hz
  refine ⟨?_, ?_, ?_⟩
  · simp [generics.Foldr]
  · intro l a z
    simp [List.foldl_cons]
  · simp [generics.Foldr]

/-- Witness for C3: folding `[1, 2, 3]` rightward-style with addition
and zero value 1 computes `3 + (2 + (1 + 1)) = 7`. -/
theorem C3_foldr_witness :
    generics.Foldr (.vslice .int [.vint 1, .vint 2, .vint 3]) (.vint 1) (.fn addFunc)
      = .ok (.vint 7) := by
  rw [(C3_foldr_correct .int .int [.vint 1, .vint 2, .vint 3] (.vint 1) addFunc rfl rfl rfl).1]
  rfl

/-- Claim C6: if the callback handed to `Map` does not take exactly one
parameter equal to the slice's element type or does not return exactly
one value, `Map` fails with the signature-mismatch panic and the
callback's behaviour is never consulted (the outcome is the same error
for every possible behaviour), including on the empty slice. -/
theorem C6_map_signature_mismatch (elemTy : Ty) (elems : List GoVal) (f : GoFunc)
    (h : ¬ (f.ins = [elemTy] ∧ f.outs.length = 1)) :
    generics.Map (.vslice elemTy elems) (.fn f) = .error generics.mapSigMsg
      ∧ ∀ c : List GoVal → List GoVal,
          generics.Map (.vslice elemTy elems) (.fn ⟨f.ins, f.outs, f.ptr, c⟩)
            = .error generics.mapSigMsg := by
  obtain ⟨ins, outs, p, c0⟩ := f
  dsimp only at h
  have key : ∀ c : List GoVal → List GoVal,
      generics.Map (.vslice elemTy elems) (.fn ⟨ins, outs, p, c⟩)
        = .error generics.mapSigMsg := by
    intro c
    rcases ins with _ | ⟨t0, _ | ⟨t1, ins2⟩⟩ <;>
      rcases outs with _ | ⟨u0, _ | ⟨u1, outs2⟩⟩ <;>
      simp_all [generics.Map]
  exact ⟨key c0, key⟩

/-- Witness for C6: handing the two-parameter callback to `Map` on an
empty int slice fails with the signature-mismatch panic. -/
theorem C6_map_signature_mismatch_witness :
    generics.Map (.vslice .int []) (.fn twoParamFunc) = .error generics.mapSigMsg :=
  (C6_map_signature_mismatch .int [] twoParamFunc (by decide)).1

/-- Claim C7: a fold callback can be structurally valid (two parameters,
accumulator parameter equal to the single return type, element parameter
equal to the element type) while the supplied zero value's type differs
from the callback's return type; in that case `Foldr` and `Foldl` fail
with the dedicated zero-type panic, which is distinct from the generic
signature-mismatch panic, and this happens on the empty slice as well. -/
theorem C7_fold_zero_type_mismatch (elemTy U : Ty) (elems : List GoVal) (zero : GoVal)
    (fr fl : GoFunc) (hrin : fr.ins = [elemTy, U]) (hrout : fr.outs = [U])
    (hlin : fl.ins = [U, elemTy]) (hlout : fl.outs = [U]) (hz : typeOf zero ≠ U) :
    generics.Foldr (.vslice elemTy elems) zero (.fn fr) = .error generics.foldrZeroMsg
      ∧ generics.Foldl (.vslice elemTy elems) zero (.fn fl) = .error generics.foldlZeroMsg
      ∧ generics.foldrZeroMsg ≠ generics.foldrSigMsg
      ∧ generics.foldlZeroMsg ≠ generics.foldlSigMsg := by
  obtain ⟨ins, outs, p, c⟩ := fr
  obtain ⟨ins2, outs2, p2, c2⟩ := fl
  dsimp only at hrin hrout hlin hlout
  subst hrin
  subst hrout
  subst hlin
  subst hlout
  refine ⟨?_, ?_, ?_, ?_⟩
  · simp [generics.Foldr, (Ne.symm hz)]
  · simp [generics.Foldl, (Ne.symm hz)]
  · decide
  · decide

/-- Witness for C7: `Foldr` on an empty int slice with the structurally
valid callback `func(i int, b bool) bool` but integer zero value 0 fails
with the zero-type panic, and symmetrically for `Foldl`. -/
theorem C7_fold_zero_type_mismatch_witness :
    generics.Foldr (.vslice .int []) (.vint 0) (.fn foldrBoolAccFunc)
        = .error generics.foldrZeroMsg
      ∧ generics.Foldl (.vslice .int []) (.vint 0) (.fn foldlBoolAccFunc)
        = .error generics.foldlZeroMsg :=
  ⟨(C7_fold_zero_type_mismatch .int .bool [] (.vint 0) foldrBoolAccFunc foldlBoolAccFunc
      rfl rfl rfl rfl (by decide)).1,
    (C7_fold_zero_type_mismatch .int .bool [] (.vint 0) foldrBoolAccFunc foldlBoolAccFunc
      rfl rfl rfl rfl (by decide)).2.1⟩

/-- Claim C8: for every non-empty slice and comparator of shape
`(T, T) to bool`, `Max` is the left-to-right fold that starts the best
at the first element and replaces it by the candidate exactly when
`less(best, candidate)` is `true`; `Min` symmetrically replaces the best
exactly when `less(candidate, best)` is `true`; on the empty slice both
return the nil no-result sentinel instead of an element. -/
theorem C8_max_min_correct (elemTy : Ty) (e : GoVal) (rest : List GoVal) (f : GoFunc)
    (hin : f.ins = [elemTy, elemTy]) (hout : f.outs = [.bool]) :
    generics.Max (.vslice elemTy (e :: rest)) (.fn f)
        = .ok (some (rest.foldl
            (fun best cand => if asBool (call2 f best cand) then cand else best) e))
      ∧ generics.Min (.vslice elemTy (e :: rest)) (.fn f)
        = .ok (some (rest.foldl
            (fun best cand => if asBool (call2 f cand best) then cand else best) e))
      ∧ generics.Max (.vslice elemTy []) (.fn f) = .ok none
      ∧ generics.Min (.vslice elemTy []) (.fn f) = .ok none := by
  obtain ⟨ins, outs, p, c⟩ := f
  dsimp only at hin hout
  subst hin
  subst hout
  refine ⟨?_, ?_, ?_, ?_⟩
  · simp [generics.Max]
  · simp [generics.Min]
  · simp [generics.Max]
  · simp [generics.Min]

/-- Witness for C8: with the integer less-than comparator, `Max` of
`[1, 2, 3]` is 3, `Min` of the same slice is 1, and both return the nil
sentinel on the empty int slice. -/
theorem C8_max_min_witness :
    generics.Max (.vslice .int [.vint 1, .vint 2, .vint 3]) (.fn lessFunc)
        = .ok (some (.vint 3))
      ∧ generics.Min (.vslice .int [.vint 1, .vint 2, .vint 3]) (.fn lessFunc)
        = .ok (some (.vint 1))
      ∧ generics.Max (.vslice .int []) (.fn lessFunc) = .ok none
      ∧ generics.Min (.vslice .int []) (.fn lessFunc) = .ok none := by
  refine ⟨?_, ?_, ?_, ?_⟩
  · rw [(C8_max_min_correct .int (.vint 1) [.vint 2, .vint 3] lessFunc rfl rfl).1]
    rfl
  · rw [(C8_max_min_correct .int (.vint 1) [.vint 2, .vint 3] lessFunc rfl rfl).2.1]
    rfl
  · exact (C8_max_min_correct .int (.vint 1) [] lessFunc rfl rfl).2.2.1
  · exact (C8_max_min_correct .int (.vint 1) [] lessFunc rfl rfl).2.2.2

/-- Claim C9: `FuncEqual` of a function value with itself is `true`;
`FuncEqual` of two callables with identical signatures but distinct code
identities is `false`; and `FuncEqual` panics with the not-a-callable
message whenever either argument is not a function value. -/
theorem C9_funcEqual (f g : GoFunc) (v : GoVal) (a : FuncArg)
    (hptr : f.ptr ≠ g.ptr) (_hsig : f.ins = g.ins ∧ f.outs = g.outs) :
    illegal.FuncEqual (.fn f) (.fn f) = .ok true
      ∧ illegal.FuncEqual (.fn f) (.fn g) = .ok false
      ∧ illegal.FuncEqual (.notFn v) a = .error illegal.funcEqualMsg
      ∧ illegal.FuncEqual a (.notFn v) = .error illegal.funcEqualMsg := by
  refine ⟨?_, ?_, ?_, ?_⟩
  · simp [illegal.FuncEqual]
  · simp [illegal.FuncEqual, hptr]
  · cases a <;> rfl
  · cases a <;> rfl

/-- Witness for C9: the always-true and always-false predicates have
identical signatures but different code addresses, so `FuncEqual`
separates them, while each equals itself and comparing against the
non-function value 3 panics. -/
theorem C9_funcEqual_witness :
    illegal.FuncEqual (.fn trueFunc) (.fn trueFunc) = .ok true
      ∧ illegal.FuncEqual (.fn trueFunc) (.fn falseFunc) = .ok false
      ∧ illegal.FuncEqual (.notFn (.vint 3)) (.fn trueFunc) = .error illegal.funcEqualMsg
      ∧ illegal.FuncEqual (.fn trueFunc) (.notFn (.vint 3)) = .error illegal.funcEqualMsg :=
  C9_funcEqual trueFunc falseFunc (.vint 3) (.fn trueFunc) (by decide) ⟨rfl, rfl⟩

/-- Claim C4 (refuted by the source; the empty-slice validation is a
slip): `int` is convertible to `float64`, so by the source's own
comment, its panic message and the spec, converting the empty `int`
slice to `float64` should succeed with an empty `float64` slice — yet
`convertSliceType` consults `slice.Type().ConvertibleTo(typ)`, i.e.
whether `[]int` converts to `float64`, and therefore fails, while the
claimed elementwise behaviour does hold on non-empty input.  The fourth
conjunct shows the complementary divergence: with target type `[]int`
the element type `int` is not convertible, yet the empty-slice check
accepts because `[]int` converts to `[]int` identically. -/
theorem C4_empty_conversion_code_bug :
    convertibleTo .int .float64 = true
      ∧ illegal.convertSliceType (.vslice .int []) .float64
        = .error "cannot convert type int to float64"
      ∧ illegal.ConvertSlice (.vslice .int []) (.vfloat64 0)
        = .error "illegal.ConvertSlice: cannot convert type int to float64"
      ∧ (convertibleTo .int (.slice .int) = false
          ∧ illegal.convertSliceType (.vslice .int []) (.slice .int)
            = .ok (.vslice (.slice .int) []))
      ∧ illegal.ConvertSlice (.vslice .int [.vint 1, .vint 2, .vint 3]) (.vfloat64 0)
        = .ok (.vslice .float64 [.vfloat64 1, .vfloat64 2, .vfloat64 3]) :=
  ⟨rfl, rfl, rfl, ⟨rfl, rfl⟩, rfl⟩

/-- Claim C10: the two exported conversion entry points agree for every
slice argument and every (non-nil) example value: they succeed on
exactly the same inputs with the same result, they fail on exactly the
same inputs, and when they fail the messages differ only in the
operation-name prefix, both wrapping the same message of the shared
routine `convertSliceType`. -/
theorem C10_convert_entry_points_agree (s v : GoVal) :
    (∀ r, illegal.ConvertSlice s v = .ok r ↔ illegal.ConvertSliceType s (typeOf v) = .ok r)
      ∧ ((∃ m, illegal.ConvertSlice s v = .error m)
          ↔ (∃ m, illegal.ConvertSliceType s (typeOf v) = .error m))
      ∧ (∀ m, illegal.convertSliceType s (typeOf v) = .error m →
          illegal.ConvertSlice s v = .error ("illegal.ConvertSlice: " ++ m)
            ∧ illegal.ConvertSliceType s (typeOf v)
              = .error ("illegal.ConvertSliceType: " ++ m)) := by
  rcases h : illegal.convertSliceType s (typeOf v) with m | r
  · refine ⟨?_, ?_, ?_⟩
    · intro r2
      simp [illegal.ConvertSlice, illegal.ConvertSliceType, h]
    · simp [illegal.ConvertSlice, illegal.ConvertSliceType, h]
    · intro m2 hm
      cases hm
      simp [illegal.ConvertSlice, illegal.ConvertSliceType, h]
  · refine ⟨?_, ?_, ?_⟩
    · intro r2
      simp [illegal.ConvertSlice, illegal.ConvertSliceType, h]
    · simp [illegal.ConvertSlice, illegal.ConvertSliceType, h]
    · intro m2 hm
      exact absurd hm (by simp)

/-- Witness for C10: on `[1]` with a `bool` example both entry points
fail with the same underlying message behind their own prefixes, and on
`[1]` with a `float64` example both succeed with `[1.0]`. -/
theorem C10_convert_entry_points_witness :
    (illegal.ConvertSlice (.vslice .int [.vint 1]) (.vbool true)
        = .error ("illegal.ConvertSlice: " ++ "cannot convert type int to bool")
      ∧ illegal.ConvertSliceType (.vslice .int [.vint 1]) .bool
        = .error ("illegal.ConvertSliceType: " ++ "cannot convert type int to bool"))
      ∧ (illegal.ConvertSlice (.vslice .int [.vint 1]) (.vfloat64 0)
          = .ok (.vslice .float64 [.vfloat64 1])
        ↔ illegal.ConvertSliceType (.vslice .int [.vint 1]) .float64
          = .ok (.vslice .float64 [.vfloat64 1])) :=
  ⟨(C10_convert_entry_points_agree (.vslice .int [.vint 1]) (.vbool true)).2.2
      "cannot convert type int to bool" rfl,
    (C10_convert_entry_points_agree (.vslice .int [.vint 1]) (.vfloat64 0)).1
      (.vslice .float64 [.vfloat64 1])⟩
